import Mathlib

/-!
Shallow embedding of the storage-provisioning core of the NeonInstall
repository (`src/neoninstall/disk_operations.py`), together with theorems
checking the specification's claims about it.

Modelling conventions:
* External effects (subprocesses, the filesystem, `/dev` enumeration) are
  abstracted by an `Env` record of deterministic oracles.  `Env.run` models
  `run_command` / `subprocess.run(check=True)`: `some out` is a successful
  call returning stdout `out`, `none` is a nonzero exit
  (`subprocess.CalledProcessError`).
* Console output (`rich` console prints) is modelled by an explicit list of
  `Msg` values returned next to each function's result.  Message texts keep
  the recognisable fixed part of the Python format strings; interpolated
  exception objects are elided.
* Python `dict`s are modelled as association lists with Python's
  insertion-order/overwrite semantics (`dictInsert`).
* Python string operations are re-implemented structurally over `List Char`
  so that every definition evaluates by kernel reduction.
* `float` formatting of the disk size (`f"{b / 2**30:.1f}G"`) is modelled as
  exact rounding of `b*10 / 2^30` to nearest, ties to even; no claim depends
  on it.
* An uncaught Python exception (the `disks[0]` IndexError reachable in
  `_prepare_disk_partitions` on an empty device list) is modelled by an
  `Option`-valued result, `none` meaning the exception propagates.
-/

namespace NeonInstall

/-- Console output, tagged with the severity markers used by the source. -/
inductive Msg
  | info (text : String)
  | warning (text : String)
  | error (text : String)
deriving DecidableEq, Repr

/-- The deterministic environment of external effects. -/
structure Env where
  /-- `run_command` / `subprocess.run(check=True)`: `none` models a
  `CalledProcessError`. -/
  run : List String → Option String
  /-- `os.path.exists`. -/
  pathExists : String → Bool
  /-- writing a file (`open(path, "w"); f.write(content)`); `false` models
  an `IOError`. -/
  writeFile : String → String → Bool
  /-- `os.listdir('/dev')`; `.error` models an `OSError`. -/
  listDevDir : Except String (List String)

/-! ### Python string primitives over `List Char` -/

/-- Split a character list at every occurrence of `sep` (Python
`str.split(sep)` for a one-character separator). -/
def splitCharAux (sep : Char) : List Char → List Char → List (List Char)
  | [], acc => [acc.reverse]
  | c :: cs, acc =>
    if c = sep then acc.reverse :: splitCharAux sep cs []
    else splitCharAux sep cs (c :: acc)

/-- Split a string at every occurrence of the character `sep`. -/
def splitChar (sep : Char) (s : String) : List String :=
  (splitCharAux sep s.data []).map List.asString

/-- Python `str.strip()`. -/
def pyStrip (s : String) : String :=
  ((s.data.dropWhile Char.isWhitespace).reverse.dropWhile
    Char.isWhitespace).reverse.asString

/-- Python `str.split()` with no argument: split on whitespace runs,
dropping empty fields. -/
def pySplitWs (s : String) : List String :=
  ((splitCharAux ' ' (s.data.map fun c => if c.isWhitespace then ' ' else c)
    []).filter (fun w => w ≠ [])).map List.asString

/-- Python `int(s)` restricted to the unsigned forms produced by `lsblk`:
surrounding whitespace then decimal digits. -/
def pyToNat (s : String) : Option Nat :=
  let t := (pyStrip s).data
  if t ≠ [] ∧ t.all Char.isDigit then
    some (t.foldl (fun n c => n * 10 + (c.toNat - 48)) 0)
  else none

/-- Python `os.path.basename`: the part after the last slash. -/
def basename (s : String) : String :=
  ((splitChar '/' s).getLastD "")

/-- Python `dict` insertion: overwrite in place if the key exists, else
append, preserving insertion order. -/
def dictInsert (m : List (String × String)) (k v : String) :
    List (String × String) :=
  if m.any (fun kv => kv.1 = k) then
    m.map (fun kv => if kv.1 = k then (k, v) else kv)
  else m ++ [(k, v)]

/-- Exact decimal formatting of tenths: `176` becomes `"17.6"`. -/
def tenthsToString (t : Nat) : String :=
  toString (t / 10) ++ "." ++ toString (t % 10)

/-- Model of `f"{size_bytes / (1024**3):.1f}G"`: `size_bytes*10 / 2^30`
rounded to the nearest integer, ties to even, rendered with one decimal. -/
def formatSizeG (size_bytes : Nat) : String :=
  let num := size_bytes * 10
  let q := num / (2 ^ 30)
  let r := num % (2 ^ 30)
  let rounded :=
    if 2 ^ 30 < 2 * r then q + 1
    else if 2 * r < 2 ^ 30 then q
    else if q % 2 = 0 then q else q + 1
  tenthsToString rounded ++ "G"

/-! ### NVMe name matching and natural sort (`get_available_nvme_disks`,
lines 114-115) -/

/-- Runs of digits in a string as numbers:
`[int(n) for n in re.findall(r"\d+", x)]`. -/
def extractNumsAux : List Char → Option Nat → List Nat
  | [], none => []
  | [], some n => [n]
  | c :: cs, acc =>
    if c.isDigit then
      extractNumsAux cs (some ((acc.getD 0) * 10 + (c.toNat - 48)))
    else
      match acc with
      | none => extractNumsAux cs none
      | some n => n :: extractNumsAux cs none

/-- All digit runs of `s`, as natural numbers, in order. -/
def extractNums (s : String) : List Nat :=
  extractNumsAux s.data none

/-- One-or-more digits at the front of a character list. -/
def parseDigits1 (cs : List Char) : Option (List Char) :=
  let ds := cs.takeWhile Char.isDigit
  if ds = [] then none else some (cs.dropWhile Char.isDigit)

/-- Anchored match of `re.match(r"nvme\d+n\d+$", d)`. -/
def matchesNvmePattern (s : String) : Bool :=
  match s.data with
  | 'n' :: 'v' :: 'm' :: 'e' :: rest =>
    match parseDigits1 rest with
    | some ('n' :: rest2) =>
      match parseDigits1 rest2 with
      | some [] => true
      | _ => false
    | _ => false
  | _ => false

/-- Python `d.startswith("nvme")`. -/
def startsWithNvme (s : String) : Bool :=
  match s.data with
  | 'n' :: 'v' :: 'm' :: 'e' :: _ => true
  | _ => false

/-- The list-comprehension filter of line 114:
`d.startswith("nvme") and re.match(r"nvme\d+n\d+$", d)`. -/
def isNvmeDeviceName (s : String) : Bool :=
  startsWithNvme s && matchesNvmePattern s

/-- Lexicographic comparison of digit-run keys, Python list `<=`. -/
def keyLE : List Nat → List Nat → Bool
  | [], _ => true
  | _ :: _, [] => false
  | a :: as, b :: bs =>
    if a < b then true else if b < a then false else keyLE as bs

/-- The sort order of line 115: compare names by their digit-run keys. -/
def nvmeLe (a b : String) : Prop :=
  keyLE (extractNums a) (extractNums b) = true

instance : DecidableRel nvmeLe := fun a b =>
  inferInstanceAs (Decidable (keyLE (extractNums a) (extractNums b) = true))

/-- Lines 114-115 of `get_available_nvme_disks`: keep names matching the
NVMe pattern and sort them by their numeric key (Python's stable sort,
modelled by the stable `List.insertionSort`). -/
def sortNvmeDevices (l : List String) : List String :=
  List.insertionSort nvmeLe (l.filter isNvmeDeviceName)

/-! ### Disk metadata queries (lines 53-101, 164-207) -/

/-- `get_disk_size` (lines 53-62): second output line of
`lsblk -d -b -o SIZE`, parsed as an integer and formatted in GiB;
`"Unknown"` on any caught failure. -/
def get_disk_size (env : Env) (disk_path : String) : String :=
  match env.run ["lsblk", "-d", "-b", "-o", "SIZE", disk_path] with
  | none => "Unknown"
  | some size_output =>
    if pyStrip size_output ≠ "" then
      match (splitChar '\n' (pyStrip size_output)).get? 1 with
      | none => "Unknown"
      | some line =>
        match pyToNat line with
        | none => "Unknown"
        | some size_bytes => formatSizeG size_bytes
    else "Unknown"

/-- `get_disk_model` (lines 65-73): second output line of
`lsblk -d -o MODEL`, stripped; `"Unknown"` on any caught failure. -/
def get_disk_model (env : Env) (disk_path : String) : String :=
  match env.run ["lsblk", "-d", "-o", "MODEL", disk_path] with
  | none => "Unknown"
  | some model_output =>
    if pyStrip model_output ≠ "" then
      match (splitChar '\n' model_output).get? 1 with
      | none => "Unknown"
      | some line => pyStrip line
    else "Unknown"

/-- One line of the body of `get_disk_filesystems` (lines 81-90). -/
def diskFsLine (filesystems : List (String × String)) (line : String) :
    List (String × String) :=
  if pyStrip line = "" then filesystems
  else
    match pySplitWs line with
    | p0 :: p1 :: _ =>
      if pyStrip p1 ≠ "" then
        let fs_type := pyStrip p1
        let part_name := "/dev/" ++ pyStrip p0
        let fs_type := if fs_type = "ntfs" then "ntfs (Windows)" else fs_type
        dictInsert filesystems part_name fs_type
      else filesystems
    | _ => filesystems

/-- `get_disk_filesystems` (lines 76-93): parse `lsblk -n -o NAME,FSTYPE`
line by line into a partition-path → filesystem-type mapping; empty on a
command failure. -/
def get_disk_filesystems (env : Env) (disk_path : String) :
    List (String × String) :=
  match env.run ["lsblk", "-n", "-o", "NAME,FSTYPE", disk_path] with
  | none => []
  | some parts_output =>
    (splitChar '\n' (pyStrip parts_output)).foldl diskFsLine []

/-- `format_filesystem_description` (lines 96-100). -/
def format_filesystem_description (filesystems : List (String × String)) :
    String :=
  if filesystems = [] then ""
  else
    String.intercalate ", "
      (filesystems.map fun kv => basename kv.1 ++ ": " ++ kv.2)

/-- A child entry of the `lsblk -J` output: a partition with its kernel
name and optional filesystem type (`none` models JSON `null`). -/
structure LsblkNode where
  kname : String
  fstype : Option String
deriving DecidableEq, Repr

/-- A device entry of the `lsblk -J` output; `children = none` models a
missing `children` key. -/
structure LsblkDevice where
  kname : String
  fstype : Option String
  children : Option (List LsblkNode)
deriving DecidableEq, Repr

/-- Python truthiness of an optional JSON string field:
`'fstype' in d and d['fstype']`. -/
def truthy : Option String → Bool
  | none => false
  | some s => s ≠ ""

/-- Input to `get_filesystem_info` after the `lsblk -J` call and
`json.loads`: the command failed, the JSON failed to decode, or the decoded
`blockdevices` array. -/
inductive LsblkResult
  | cmdFailed
  | decodeFailed
  | parsed (blockdevices : List LsblkDevice)

/-- `get_filesystem_info` (lines 164-207): filesystem types of the disk
and of each of its partitions, keyed by kernel name; entries exist only for
truthy `fstype` fields. -/
def get_filesystem_info (r : LsblkResult) :
    List (String × String) × List Msg :=
  match r with
  | .cmdFailed => ([], [Msg.warning "Failed to get filesystem info"])
  | .decodeFailed => ([], [])
  | .parsed [] => ([], [])
  | .parsed (device :: _) =>
    let fs_info : List (String × String) :=
      if truthy device.fstype then
        dictInsert [] device.kname (device.fstype.getD "")
      else []
    let fs_info :=
      match device.children with
      | none => fs_info
      | some children =>
        children.foldl
          (fun m part =>
            if truthy part.fstype then
              dictInsert m part.kname (part.fstype.getD "")
            else m)
          fs_info
    (fs_info, [])

/-! ### Disk inventory (`get_available_nvme_disks`, lines 103-161) -/

/-- The per-disk record built by `get_available_nvme_disks`. -/
structure DiskInfo where
  name : String
  value : String
  display : String
  size : String
  model : String
  filesystems : List (String × String)
deriving DecidableEq, Repr

/-- Loop body of `get_available_nvme_disks` (lines 117-152): query
metadata and build the labelled record for one device name. -/
def mkDiskInfo (env : Env) (device : String) : DiskInfo :=
  let disk_path := "/dev/" ++ device
  let size := get_disk_size env disk_path
  let model := get_disk_model env disk_path
  let filesystems := get_disk_filesystems env disk_path
  let fs_desc := format_filesystem_description filesystems
  let basic_info := disk_path ++ " (" ++ size ++ ", " ++ model ++ ")"
  let display_info :=
    if filesystems ≠ [] then
      basic_info ++ " - [red]Has filesystem(s): " ++ fs_desc ++ "[/red]"
    else basic_info ++ " - [green]No formatted partitions[/green]"
  let clean_info :=
    if filesystems ≠ [] then
      basic_info ++ " - Has filesystem(s): " ++ fs_desc
    else basic_info ++ " - No formatted partitions"
  { name := clean_info
    value := disk_path
    display := display_info
    size := size
    model := model
    filesystems := filesystems }

/-- `get_available_nvme_disks` (lines 103-161): enumerate `/dev`, keep and
naturally sort NVMe device names, and build a `DiskInfo` per device; on an
enumeration failure print an error and return the empty list. -/
def get_available_nvme_disks (env : Env) : List DiskInfo × List Msg :=
  match env.listDevDir with
  | .error e => ([], [Msg.error ("Failed to list disks: " ++ e)])
  | .ok entries =>
    let nvme_disks := (sortNvmeDevices entries).map (mkDiskInfo env)
    if nvme_disks = [] then
      (nvme_disks, [Msg.error "No NVMe disks found."])
    else (nvme_disks, [])

/-! ### Disk wiping (`wipe_disks`, lines 287-318) -/

/-- `wipe_disks`: per disk, best-effort `wipefs` (failure only warns), then
fatal `sgdisk --zap-all` and `sync`. -/
def wipe_disks (env : Env) : List String → Bool × List Msg
  | [] => (true, [])
  | disk :: rest =>
    let m0 := [Msg.info ("Wiping disk " ++ disk ++ "...")]
    let wmsgs :=
      match env.run ["wipefs", "--all", disk] with
      | some _ => []
      | none => [Msg.warning ("Failed to run wipefs on " ++ disk)]
    match env.run ["sgdisk", "--zap-all", disk] with
    | none =>
      (false, m0 ++ wmsgs ++ [Msg.error ("Failed to wipe disk " ++ disk)])
    | some _ =>
      match env.run ["sync"] with
      | none =>
        (false, m0 ++ wmsgs ++ [Msg.error ("Failed to wipe disk " ++ disk)])
      | some _ =>
        let r := wipe_disks env rest
        (r.1, m0 ++ wmsgs ++ r.2)

/-! ### Partition preparation (`_prepare_disk_partitions`, lines 490-559) -/

/-- The per-disk loop of `_prepare_disk_partitions` (lines 492-530): every
command of the `try` block is fatal on failure except the partition-table
reread, whose primary and fallback methods are caught, warning if both
fail. -/
def prepareLoop (env : Env) : List String → Bool × List Msg
  | [] => (true, [])
  | disk :: rest =>
    let fatal := fun (_ : Unit) =>
      (false, [Msg.error ("Failed to create partitions on " ++ disk)])
    match env.run ["wipefs", "--all", disk] with
    | none => fatal ()
    | some _ =>
    match env.run ["sgdisk", "--zap-all", disk] with
    | none => fatal ()
    | some _ =>
    match env.run ["sgdisk", "--new=1:0:+1024M", "--typecode=1:EF00",
        "--change-name=1:EFI", disk] with
    | none => fatal ()
    | some _ =>
    match env.run ["sgdisk", "--new=2:0:0", "--typecode=2:BF01",
        "--change-name=2:ZFS", disk] with
    | none => fatal ()
    | some _ =>
    let rereadMsgs :=
      match env.run ["partprobe", disk] with
      | some _ => []
      | none =>
        match env.run ["blockdev", "--rereadpt", disk] with
        | some _ => []
        | none =>
          [Msg.warning ("Failed to reread partition table on " ++ disk)]
    match env.run ["sync"] with
    | none =>
      (false,
       rereadMsgs ++ [Msg.error ("Failed to create partitions on " ++ disk)])
    | some _ =>
      let r := prepareLoop env rest
      (r.1, rereadMsgs ++ r.2)

/-- `_prepare_disk_partitions` (lines 490-559): partition every disk, then
poll for the first disk's EFI partition node and format it.  `none` models
the uncaught `IndexError` of `disks[0]` on an empty device list. -/
def prepare_disk_partitions (env : Env) (disks : List String) :
    Option ((Bool × String) × List Msg) :=
  let loop := prepareLoop env disks
  if loop.1 = false then some ((false, ""), loop.2)
  else
    match disks with
    | [] => none
    | d0 :: _ =>
      let efi_partition := d0 ++ "1"
      let waitMsgs :=
        if env.pathExists efi_partition then []
        else
          (List.range 5).map fun attempt =>
            Msg.info ("Waiting for EFI partition " ++ efi_partition ++
              " to appear (attempt " ++ toString (attempt + 1) ++ "/5)...")
      if env.pathExists efi_partition then
        match env.run ["mkfs.fat", "-F32", "-n", "EFI", efi_partition] with
        | some _ => some ((true, efi_partition), loop.2 ++ waitMsgs)
        | none =>
          some ((false, ""),
            loop.2 ++ waitMsgs ++ [Msg.error "Failed to format EFI partition"])
      else
        some ((false, ""),
          loop.2 ++ waitMsgs ++
            [Msg.error ("EFI partition " ++ efi_partition ++
              " was not created.")])

/-! ### Pool planning (`_get_available_pool_types`, lines 465-487, and
`_build_pool_create_command`, lines 562-596) -/

/-- `_get_available_pool_types`: the (label, value) choices offered for a
given disk count. -/
def get_available_pool_types (disk_count : Nat) : List (String × String) :=
  if disk_count = 1 then
    [("Single disk (no redundancy)", "single")]
  else if disk_count = 2 then
    [("Mirror (RAID1, 50% usable space)", "mirror"),
     ("Single disk (no redundancy, use second disk for separate pool)",
      "single")]
  else
    let pool_types :=
      [("RAIDZ1 (RAID5, " ++ toString (disk_count - 1) ++ "/" ++
          toString disk_count ++ " usable space)", "raidz1"),
       ("Mirror (RAID1, 50% usable space)", "mirror"),
       ("Single disk (no redundancy, use other disks for separate pools)",
        "single")]
    if 4 ≤ disk_count then
      pool_types.insertIdx 1
        ("RAIDZ2 (RAID6, " ++ toString (disk_count - 2) ++ "/" ++
          toString disk_count ++ " usable space)", "raidz2")
    else pool_types

/-- The fixed tuning-property suffix appended at lines 584-594. -/
def tuning_options : List String :=
  ["-o", "ashift=12",
   "-o", "compression=zstd",
   "-o", "xattr=sa",
   "-o", "acltype=posixacl",
   "-o", "dnodesize=auto",
   "-o", "atime=off",
   "-O", "canmount=off",
   "-O", "mountpoint=none",
   "-O", "normalization=formD"]

/-- The layout-dependent arguments appended at lines 567-581 of
`_build_pool_create_command`, plus the warning printed in the multi-disk
`single` branch.  `zfs_partitions[0]` is modelled by `headI` (callers
always pass a nonempty list). -/
def poolVdevArgs (pool_type pool_name : String)
    (disks zfs_partitions : List String) : List String × List Msg :=
  if pool_type = "single" then
    if disks.length = 1 then ([pool_name, zfs_partitions.headI], [])
    else
      ([pool_name, zfs_partitions.headI],
       [Msg.warning "Only using the first disk for the ZFS pool."])
  else if pool_type = "mirror" then
    ([pool_name, "mirror"] ++ zfs_partitions, [])
  else if pool_type = "raidz1" then
    ([pool_name, "raidz"] ++ zfs_partitions, [])
  else if pool_type = "raidz2" then
    ([pool_name, "raidz2"] ++ zfs_partitions, [])
  else ([], [])

/-- `_build_pool_create_command` (lines 562-596): the base
`zpool create -f`, the layout-dependent arguments, and the fixed
tuning-property suffix, in that order. -/
def build_pool_create_command (pool_type pool_name : String)
    (disks zfs_partitions : List String) : List String × List Msg :=
  let vdev := poolVdevArgs pool_type pool_name disks zfs_partitions
  ((["zpool", "create", "-f"] ++ vdev.1) ++ tuning_options, vdev.2)

/-! ### Pool configuration (lines 350-401, 599-639) -/

/-- Content of `/etc/systemd/system/zfs-trim.timer` (lines 362-371). -/
def trimTimerContent : String :=
  "[Unit]\nDescription=ZFS TRIM Timer\n\n[Timer]\nOnCalendar=weekly\n" ++
  "Persistent=true\n\n[Install]\nWantedBy=timers.target\n"

/-- Content of `/etc/systemd/system/zfs-trim.service` (lines 378-388). -/
def trimServiceContent (pool_name : String) : String :=
  "[Unit]\nDescription=ZFS TRIM Service\nRequires=zfs.target\n\n" ++
  "[Service]\nType=oneshot\nExecStart=/usr/sbin/zpool trim " ++ pool_name ++
  "\n\n[Install]\nWantedBy=multi-user.target\n"

/-- `_create_trim_service_files` (lines 350-401): write the timer and
service units and enable the timer; any `IOError`/command failure is caught
and reported as an error with a `false` result. -/
def create_trim_service_files (env : Env) (pool_name : String) :
    Bool × List Msg :=
  if env.writeFile "/etc/systemd/system/zfs-trim.timer" trimTimerContent
  then
    if env.writeFile "/etc/systemd/system/zfs-trim.service"
        (trimServiceContent pool_name) then
      match env.run ["systemctl", "enable", "zfs-trim.timer"] with
      | some _ => (true, [])
      | none => (false, [Msg.error "Failed to create TRIM service files"])
    else (false, [Msg.error "Failed to create TRIM service files"])
  else (false, [Msg.error "Failed to create TRIM service files"])

/-- `enable_pool_autotrim` (lines 624-639): `zpool set autotrim=on`, a
caught failure warns and returns `false`. -/
def enable_pool_autotrim (env : Env) (pool_name : String) :
    Bool × List Msg :=
  match env.run ["zpool", "set", "autotrim=on", pool_name] with
  | some _ => (true, [])
  | none => (false, [Msg.warning ("Failed to enable TRIM: " ++ pool_name)])

/-- `configure_pool_options` (lines 599-621): run both post-creation
sub-steps, warn-and-continue on each failure, and report `true` only when
both succeeded. -/
def configure_pool_options (env : Env) (pool_name : String) :
    Bool × List Msg :=
  let r1 := enable_pool_autotrim env pool_name
  let m1 :=
    if r1.1 then r1.2
    else r1.2 ++ [Msg.warning "Failed to enable autotrim, but continuing."]
  let r2 := create_trim_service_files env pool_name
  let m2 :=
    if r2.1 then r2.2
    else
      r2.2 ++
        [Msg.warning "Failed to create TRIM service files, but continuing."]
  (r1.1 && r2.1, m1 ++ m2)

/-! ### Pool creation (`create_zfs_pool`, lines 404-443) -/

/-- `create_zfs_pool`: prepare partitions, build and run the `zpool create`
command, then configure the pool.  The interactive
`_get_pool_configuration` answers are passed in as `pool_type` and
`pool_name`.  `none` models the uncaught exception reachable on an empty
device list. -/
def create_zfs_pool (env : Env) (disks : List String)
    (pool_type pool_name : String) :
    Option ((Bool × String × String) × List Msg) :=
  match prepare_disk_partitions env disks with
  | none => none
  | some (prep, pmsgs) =>
    if prep.1 = false then some ((false, "", ""), pmsgs)
    else
      let efi_partition := prep.2
      let zfs_partitions := disks.map fun disk => disk ++ "2"
      let built :=
        build_pool_create_command pool_type pool_name disks zfs_partitions
      let msgs := pmsgs ++ built.2 ++
        [Msg.info ("Creating ZFS pool with command: " ++
          String.intercalate " " built.1)]
      match env.run built.1 with
      | none =>
        some ((false, "", ""),
          msgs ++ [Msg.error "Failed to create ZFS pool"])
      | some _ =>
        let msgs := msgs ++
          [Msg.info ("ZFS pool '" ++ pool_name ++ "' created successfully.")]
        let cfg := configure_pool_options env pool_name
        if cfg.1 then
          some ((true, pool_name, efi_partition), msgs ++ cfg.2)
        else some ((false, "", ""), msgs ++ cfg.2)

/-- The legal-layout table of §3 of the spec, used as the comparison set
for layout-planning claims. -/
def planLayoutsSpec (deviceCount : Nat) : List String :=
  if deviceCount = 1 then ["single"]
  else if deviceCount = 2 then ["mirror", "single"]
  else if deviceCount = 3 then ["raidz1", "mirror", "single"]
  else ["raidz2", "raidz1", "mirror", "single"]

/-! ### Helper lemmas -/

theorem keyLE_total : ∀ a b : List Nat, keyLE a b = true ∨ keyLE b a = true
  | [], _ => Or.inl rfl
  | _ :: _, [] => Or.inr rfl
  | a :: as, b :: bs => by
    rcases Nat.lt_trichotomy a b with h | h | h
    · left; simp [keyLE, h]
    · subst h
      rcases keyLE_total as bs with ih | ih
      · left; simp [keyLE, Nat.lt_irrefl, ih]
      · right; simp [keyLE, Nat.lt_irrefl, ih]
    · right; simp [keyLE, h]

theorem keyLE_trans : ∀ a b c : List Nat,
    keyLE a b = true → keyLE b c = true → keyLE a c = true
  | [], _, _, _, _ => rfl
  | _ :: _, [], _, h, _ => by simp [keyLE] at h
  | _ :: _, _ :: _, [], _, h => by simp [keyLE] at h
  | a :: as, b :: bs, c :: cs, h1, h2 => by
    by_cases hab : a < b
    · by_cases hbc : b < c
      · simp [keyLE, Nat.lt_trans hab hbc]
      · by_cases hcb : c < b
        · simp [keyLE, Nat.lt_asymm hcb, hcb] at h2
        · have hbc' : b = c := Nat.le_antisymm
            (Nat.not_lt.mp hcb) (Nat.not_lt.mp hbc)
          subst hbc'
          simp [keyLE, hab]
    · by_cases hba : b < a
      · simp [keyLE, Nat.lt_asymm hba, hba] at h1
      · have hab' : a = b := Nat.le_antisymm
          (Nat.not_lt.mp hba) (Nat.not_lt.mp hab)
        subst hab'
        simp only [keyLE, Nat.lt_irrefl, if_false] at h1
        by_cases hac : a < c
        · simp [keyLE, hac]
        · by_cases hca : c < a
          · simp [keyLE, Nat.lt_asymm hca, hca] at h2
          · have hac' : a = c := Nat.le_antisymm
              (Nat.not_lt.mp hca) (Nat.not_lt.mp hac)
            subst hac'
            simp only [keyLE, Nat.lt_irrefl, if_false] at h2 ⊢
            exact keyLE_trans as bs cs h1 h2

instance : IsTotal String nvmeLe :=
  ⟨fun a b => keyLE_total (extractNums a) (extractNums b)⟩

instance : IsTrans String nvmeLe :=
  ⟨fun a b c => keyLE_trans (extractNums a) (extractNums b) (extractNums c)⟩

theorem mkDiskInfo_value (env : Env) (d : String) :
    (mkDiskInfo env d).value = "/dev/" ++ d := rfl

/-! ### Claims -/

/-- C1: for devices `["/dev/nvme0n1", "/dev/nvme1n1"]`, layout `mirror`,
pool name `"neonpool"`, the pool-create command builder returns exactly the
stated argument list, where each data partition is the device path with
`"2"` appended; and for every layout the fixed tuning-property suffix is
appended, in this fixed order, after the layout-dependent arguments. -/
theorem claim_C1 :
    (build_pool_create_command "mirror" "neonpool"
        ["/dev/nvme0n1", "/dev/nvme1n1"]
        (["/dev/nvme0n1", "/dev/nvme1n1"].map fun d => d ++ "2")).1 =
      ["zpool", "create", "-f", "neonpool", "mirror", "/dev/nvme0n12",
       "/dev/nvme1n12", "-o", "ashift=12", "-o", "compression=zstd", "-o",
       "xattr=sa", "-o", "acltype=posixacl", "-o", "dnodesize=auto", "-o",
       "atime=off", "-O", "canmount=off", "-O", "mountpoint=none", "-O",
       "normalization=formD"] ∧
    ∀ pool_type pool_name disks zfs_partitions, ∃ head,
      (build_pool_create_command pool_type pool_name disks
          zfs_partitions).1 = head ++ tuning_options :=
  ⟨by decide, fun pool_type pool_name disks zfs_partitions =>
    ⟨["zpool", "create", "-f"] ++
      (poolVdevArgs pool_type pool_name disks zfs_partitions).1, rfl⟩⟩

/-- C2: for every device count in `{1, 2, 3, 4, 5}` the set of layout
values offered by `_get_available_pool_types` is exactly the table of §3:
`{single}`, `{mirror, single}`, `{raidz1, mirror, single}`,
`{raidz2, raidz1, mirror, single}` — stated as a permutation, so no
layout is missing, duplicated or extra. -/
theorem claim_C2 :
    List.Perm ((get_available_pool_types 1).map Prod.snd) ["single"] ∧
    List.Perm ((get_available_pool_types 2).map Prod.snd)
      ["mirror", "single"] ∧
    List.Perm ((get_available_pool_types 3).map Prod.snd)
      ["raidz1", "mirror", "single"] ∧
    List.Perm ((get_available_pool_types 4).map Prod.snd)
      ["raidz2", "raidz1", "mirror", "single"] ∧
    List.Perm ((get_available_pool_types 5).map Prod.snd)
      ["raidz2", "raidz1", "mirror", "single"] := by
  have h1 : (get_available_pool_types 1).map Prod.snd = ["single"] := by
    decide
  have h2 : (get_available_pool_types 2).map Prod.snd =
      ["mirror", "single"] := by decide
  have h3 : (get_available_pool_types 3).map Prod.snd =
      ["raidz1", "mirror", "single"] := by decide
  have h4 : (get_available_pool_types 4).map Prod.snd =
      ["raidz1", "raidz2", "mirror", "single"] := by decide
  have h5 : (get_available_pool_types 5).map Prod.snd =
      ["raidz1", "raidz2", "mirror", "single"] := by decide
  rw [h1, h2, h3, h4, h5]
  exact ⟨.refl _, .refl _, .refl _,
    List.Perm.swap "raidz2" "raidz1" _, List.Perm.swap "raidz2" "raidz1" _⟩

/-- C5: with more than one device, building the `single`-layout command
warns that only the first device is used, and the resulting argument list
is exactly the base, the pool name, the first device's data partition and
the tuning suffix — so no other device's partition appears in it. -/
theorem claim_C5 (pool_name : String) (disks : List String)
    (h : 1 < disks.length) :
    (build_pool_create_command "single" pool_name disks
        (disks.map fun d => d ++ "2")).1 =
      ["zpool", "create", "-f", pool_name, disks.headI ++ "2"] ++
        tuning_options ∧
    Msg.warning "Only using the first disk for the ZFS pool." ∈
      (build_pool_create_command "single" pool_name disks
          (disks.map fun d => d ++ "2")).2 := by
  match disks, h with
  | d :: d2 :: rest, _ =>
    have hlen : (d :: d2 :: rest).length = 1 ↔ False := by simp
    constructor
    · simp [build_pool_create_command, poolVdevArgs, hlen]
    · simp [build_pool_create_command, poolVdevArgs, hlen]

/-- C5 witness: the two-device instance of `claim_C5`. -/
theorem claim_C5_witness :
    (build_pool_create_command "single" "neonpool"
        ["/dev/nvme0n1", "/dev/nvme1n1"]
        (["/dev/nvme0n1", "/dev/nvme1n1"].map fun d => d ++ "2")).1 =
      ["zpool", "create", "-f", "neonpool",
        ["/dev/nvme0n1", "/dev/nvme1n1"].headI ++ "2"] ++ tuning_options ∧
    Msg.warning "Only using the first disk for the ZFS pool." ∈
      (build_pool_create_command "single" "neonpool"
          ["/dev/nvme0n1", "/dev/nvme1n1"]
          (["/dev/nvme0n1", "/dev/nvme1n1"].map fun d => d ++ "2")).2 :=
  claim_C5 "neonpool" ["/dev/nvme0n1", "/dev/nvme1n1"] (by decide)

/-- C6 counterexample: `raidz2` is not a legal layout for one disk — it is
not among the offered values — yet `_build_pool_create_command` does not
fail on it: it silently returns a well-formed `zpool create` command. -/
theorem claim_C6_counterexample :
    "raidz2" ∉ (get_available_pool_types 1).map Prod.snd ∧
    (build_pool_create_command "raidz2" "neonpool" ["/dev/nvme0n1"]
        ["/dev/nvme0n12"]).1 =
      ["zpool", "create", "-f", "neonpool", "raidz2", "/dev/nvme0n12"] ++
        tuning_options := by
  exact ⟨by decide, by decide⟩

/-- C6 amended: layout legality is enforced only at selection time — for
every device count ≥ 1 the offered layout values are exactly the legal set
of §3 — while `_build_pool_create_command` itself performs no validation
and returns a well-formed command (base slot plus the fixed tuning suffix)
for every layout string. -/
theorem claim_C6 (n : Nat) (h : 1 ≤ n) :
    (∀ v, v ∈ (get_available_pool_types n).map Prod.snd ↔
      v ∈ planLayoutsSpec n) ∧
    ∀ pool_type pool_name disks zfs_partitions, ∃ head,
      (build_pool_create_command pool_type pool_name disks
          zfs_partitions).1 = head ++ tuning_options := by
  constructor
  · intro v
    match n, h with
    | 1, _ => simp [get_available_pool_types, planLayoutsSpec]
    | 2, _ => simp [get_available_pool_types, planLayoutsSpec]
    | 3, _ => simp [get_available_pool_types, planLayoutsSpec]
    | m + 4, _ =>
      have e1 : ¬ (m + 4 = 1) := by omega
      have e2 : ¬ (m + 4 = 2) := by omega
      have e3 : ¬ (m + 4 = 3) := by omega
      have e4 : 4 ≤ m + 4 := by omega
      simp only [get_available_pool_types, planLayoutsSpec, e1, e2, e3, e4,
        if_false, if_true, List.insertIdx_succ_cons,
        List.insertIdx_zero, List.map_cons, List.map_nil, List.mem_cons,
        List.not_mem_nil, or_false]
      tauto
  · exact fun pool_type pool_name disks zfs_partitions =>
      ⟨["zpool", "create", "-f"] ++
        (poolVdevArgs pool_type pool_name disks zfs_partitions).1, rfl⟩

/-- C6 witness: `claim_C6` instantiated at a device count of 2. -/
theorem claim_C6_witness :
    (∀ v, v ∈ (get_available_pool_types 2).map Prod.snd ↔
      v ∈ planLayoutsSpec 2) ∧
    ∀ pool_type pool_name disks zfs_partitions, ∃ head,
      (build_pool_create_command pool_type pool_name disks
          zfs_partitions).1 = head ++ tuning_options :=
  claim_C6 2 (by decide)

/-- C7: the disk inventory's name ordering is the natural order on the
embedded numbers — the sorted output is sorted under the digit-run key
comparison, it is a permutation of the pattern-matching input names, the
stated concrete example holds, and `get_available_nvme_disks` lists
devices in exactly this order. -/
theorem claim_C7 :
    (∀ l : List String, List.Sorted nvmeLe (sortNvmeDevices l)) ∧
    (∀ l : List String,
      List.Perm (sortNvmeDevices l) (l.filter isNvmeDeviceName)) ∧
    (sortNvmeDevices ["nvme10n1", "nvme2n1", "nvme1n1"] =
      ["nvme1n1", "nvme2n1", "nvme10n1"]) ∧
    ∀ env entries, env.listDevDir = .ok entries →
      (get_available_nvme_disks env).1.map DiskInfo.value =
        (sortNvmeDevices entries).map fun d => "/dev/" ++ d := by
  refine ⟨fun l => List.sorted_insertionSort nvmeLe _,
    fun l => List.perm_insertionSort nvmeLe _, by decide, ?_⟩
  intro env entries h
  simp only [get_available_nvme_disks, h]
  split <;>
    simp [List.map_map, Function.comp_def, mkDiskInfo_value]

/-- C7 witness: `claim_C7` applied to a concrete enumeration containing a
non-NVMe entry and two NVMe names. -/
theorem claim_C7_witness :
    (get_available_nvme_disks
        { run := fun _ => none
          pathExists := fun _ => false
          writeFile := fun _ _ => false
          listDevDir := .ok ["nvme2n1", "loop0", "nvme1n1"] }).1.map
      DiskInfo.value =
      (sortNvmeDevices ["nvme2n1", "loop0", "nvme1n1"]).map
        fun d => "/dev/" ++ d :=
  claim_C7.2.2.2
    { run := fun _ => none
      pathExists := fun _ => false
      writeFile := fun _ _ => false
      listDevDir := .ok ["nvme2n1", "loop0", "nvme1n1"] }
    ["nvme2n1", "loop0", "nvme1n1"] rfl

/-- Environment in which every external command succeeds except
`zpool set autotrim=on neonpool`. -/
def envAutotrimFails : Env :=
  { run := fun cmd =>
      if cmd = ["zpool", "set", "autotrim=on", "neonpool"] then none
      else some ""
    pathExists := fun _ => true
    writeFile := fun _ _ => true
    listDevDir := .ok [] }

/-- C3 counterexample: with partitioning and `zpool create` succeeding and
only the best-effort `zpool set autotrim=on` sub-step failing,
`configure_pool_options` reports failure and `create_zfs_pool` returns the
failure triple `(false, "", "")` rather than success. -/
theorem claim_C3_counterexample :
    (configure_pool_options envAutotrimFails "neonpool").1 = false ∧
    envAutotrimFails.run (build_pool_create_command "single" "neonpool"
        ["/dev/nvme0n1"] ["/dev/nvme0n12"]).1 = some "" ∧
    (create_zfs_pool envAutotrimFails ["/dev/nvme0n1"] "single"
        "neonpool").map (fun r => r.1) = some (false, "", "") :=
  ⟨by decide, by decide, by decide⟩

/-- C3 amended: a failed best-effort sub-step emits its warning and
`configure_pool_options` continues to the next sub-step, but it reports
failure, and `create_zfs_pool` then returns failure `(false, "", "")` even
when partitioning and pool creation themselves succeeded. -/
theorem claim_C3 (env : Env) (disks : List String)
    (pool_type pool_name efi : String) (pmsgs : List Msg)
    (hprep : prepare_disk_partitions env disks = some ((true, efi), pmsgs))
    (hrun : env.run (build_pool_create_command pool_type pool_name disks
        (disks.map fun d => d ++ "2")).1 ≠ none)
    (hcfg : (configure_pool_options env pool_name).1 = false) :
    (∃ msgs, create_zfs_pool env disks pool_type pool_name =
      some ((false, "", ""), msgs)) ∧
    ((enable_pool_autotrim env pool_name).1 = false →
      Msg.warning "Failed to enable autotrim, but continuing." ∈
        (configure_pool_options env pool_name).2) := by
  constructor
  · obtain ⟨out, hout⟩ := Option.ne_none_iff_exists'.mp hrun
    simp [create_zfs_pool, hprep, hout, hcfg]
  · intro hat
    simp [configure_pool_options, hat]

/-- C3 witness: `claim_C3` at the concrete failing-autotrim environment. -/
theorem claim_C3_witness :
    (∃ msgs, create_zfs_pool envAutotrimFails ["/dev/nvme0n1"] "single"
      "neonpool" = some ((false, "", ""), msgs)) ∧
    ((enable_pool_autotrim envAutotrimFails "neonpool").1 = false →
      Msg.warning "Failed to enable autotrim, but continuing." ∈
        (configure_pool_options envAutotrimFails "neonpool").2) :=
  claim_C3 envAutotrimFails ["/dev/nvme0n1"] "single" "neonpool"
    "/dev/nvme0n11" [] (by decide) (by decide) (by decide)

/-- Environment in which every external command succeeds except
`wipefs --all /dev/nvme0n1`. -/
def envWipefsFails : Env :=
  { run := fun cmd =>
      if cmd = ["wipefs", "--all", "/dev/nvme0n1"] then none else some ""
    pathExists := fun _ => true
    writeFile := fun _ _ => true
    listDevDir := .ok [] }

/-- C4 counterexample: when only the signature-wipe command fails,
`_prepare_disk_partitions` does not continue past it — it returns failure
with an error message (and no warning). -/
theorem claim_C4_counterexample :
    prepare_disk_partitions envWipefsFails ["/dev/nvme0n1"] =
      some ((false, ""),
        [Msg.error "Failed to create partitions on /dev/nvme0n1"]) ∧
    envWipefsFails.run ["sgdisk", "--zap-all", "/dev/nvme0n1"] = some "" :=
  ⟨by decide, by decide⟩

/-- C4 amended: inside `_prepare_disk_partitions` a `wipefs` failure is
fatal — the operation returns failure; the best-effort signature wipe is in
`wipe_disks`, where a `wipefs` failure is logged as a warning and does not
by itself make the operation fail. -/
theorem claim_C4 (env : Env) (disk : String) (rest : List String)
    (hw : env.run ["wipefs", "--all", disk] = none)
    (hz : env.run ["sgdisk", "--zap-all", disk] ≠ none)
    (hs : env.run ["sync"] ≠ none) :
    (∃ m, prepare_disk_partitions env (disk :: rest) =
      some ((false, ""), m)) ∧
    (wipe_disks env [disk]).1 = true ∧
    Msg.warning ("Failed to run wipefs on " ++ disk) ∈
      (wipe_disks env [disk]).2 := by
  obtain ⟨z, hz'⟩ := Option.ne_none_iff_exists'.mp hz
  obtain ⟨s, hs'⟩ := Option.ne_none_iff_exists'.mp hs
  refine ⟨⟨[Msg.error ("Failed to create partitions on " ++ disk)], ?_⟩,
    ?_, ?_⟩
  · simp [prepare_disk_partitions, prepareLoop, hw]
  · simp [wipe_disks, hw, hz', hs']
  · simp [wipe_disks, hw, hz', hs']

/-- C4 witness: `claim_C4` at the concrete failing-wipefs environment. -/
theorem claim_C4_witness :
    (∃ m, prepare_disk_partitions envWipefsFails ["/dev/nvme0n1"] =
      some ((false, ""), m)) ∧
    (wipe_disks envWipefsFails ["/dev/nvme0n1"]).1 = true ∧
    Msg.warning ("Failed to run wipefs on " ++ "/dev/nvme0n1") ∈
      (wipe_disks envWipefsFails ["/dev/nvme0n1"]).2 :=
  claim_C4 envWipefsFails "/dev/nvme0n1" [] (by decide) (by decide)
    (by decide)

theorem truthy_getD_ne {o : Option String} (h : truthy o = true) :
    o.getD "" ≠ "" := by
  cases o with
  | none => simp [truthy] at h
  | some s => simpa [truthy] using h

theorem dictInsert_values_ne {m : List (String × String)} {k v : String}
    (hm : ∀ kv ∈ m, kv.2 ≠ "") (hv : v ≠ "") :
    ∀ kv ∈ dictInsert m k v, kv.2 ≠ "" := by
  intro kv hkv
  unfold dictInsert at hkv
  split at hkv
  · obtain ⟨kv', hkv', rfl⟩ := List.mem_map.mp hkv
    by_cases h : kv'.1 = k
    · simpa [h] using hv
    · simpa [h] using hm kv' hkv'
  · rcases List.mem_append.mp hkv with h | h
    · exact hm kv h
    · simp only [List.mem_singleton] at h
      subst h
      exact hv

theorem diskFsLine_values_ne {m : List (String × String)} {line : String}
    (hm : ∀ kv ∈ m, kv.2 ≠ "") :
    ∀ kv ∈ diskFsLine m line, kv.2 ≠ "" := by
  intro kv hkv
  unfold diskFsLine at hkv
  split at hkv
  · exact hm kv hkv
  · split at hkv
    · rename_i p0 p1 _
      split at hkv
      · rename_i hne
        refine dictInsert_values_ne hm ?_ kv hkv
        split
        · decide
        · exact hne
      · exact hm kv hkv
    · exact hm kv hkv

theorem foldl_diskFsLine_values_ne (lines : List String) :
    ∀ m, (∀ kv ∈ m, kv.2 ≠ "") →
      ∀ kv ∈ lines.foldl diskFsLine m, kv.2 ≠ "" := by
  induction lines with
  | nil => intro m hm; simpa using hm
  | cons line rest ih =>
    intro m hm kv hkv
    rw [List.foldl_cons] at hkv
    exact ih _ (diskFsLine_values_ne hm) kv hkv

theorem foldl_children_values_ne (children : List LsblkNode) :
    ∀ m, (∀ kv ∈ m, kv.2 ≠ "") →
      ∀ kv ∈ children.foldl
        (fun m part =>
          if truthy part.fstype then
            dictInsert m part.kname (part.fstype.getD "")
          else m) m,
      kv.2 ≠ "" := by
  induction children with
  | nil => intro m hm; simpa using hm
  | cons part rest ih =>
    intro m hm kv hkv
    rw [List.foldl_cons] at hkv
    refine ih _ ?_ kv hkv
    by_cases h : truthy part.fstype = true
    · rw [if_pos h]
      exact dictInsert_values_ne hm (truthy_getD_ne h)
    · rw [if_neg h]
      exact hm

/-- C8: neither filesystem-detection mapping ever holds an empty-string
value — an undetectable filesystem is simply absent — and a disk with no
partitions and no filesystem yields an empty mapping, both for the
structured (`get_filesystem_info`) and the line-oriented
(`get_disk_filesystems`) query. -/
theorem claim_C8 :
    (∀ env disk_path kv, kv ∈ get_disk_filesystems env disk_path →
      kv.2 ≠ "") ∧
    (∀ r kv, kv ∈ (get_filesystem_info r).1 → kv.2 ≠ "") ∧
    (∀ kname, get_filesystem_info
      (.parsed [{ kname := kname, fstype := none, children := none }]) =
        ([], [])) ∧
    (∀ env disk_path,
      env.run ["lsblk", "-n", "-o", "NAME,FSTYPE", disk_path] =
        some "nvme0n1\n" →
      get_disk_filesystems env disk_path = []) := by
  refine ⟨?_, ?_, ?_, ?_⟩
  · intro env disk_path kv hkv
    unfold get_disk_filesystems at hkv
    split at hkv
    · simp at hkv
    · exact foldl_diskFsLine_values_ne _ [] (by simp) kv hkv
  · intro r kv hkv
    match r with
    | .cmdFailed => simp [get_filesystem_info] at hkv
    | .decodeFailed => simp [get_filesystem_info] at hkv
    | .parsed [] => simp [get_filesystem_info] at hkv
    | .parsed (device :: rest) =>
      have hinit : ∀ kv ∈ (if truthy device.fstype then
          dictInsert [] device.kname (device.fstype.getD "") else []),
          kv.2 ≠ "" := by
        by_cases h : truthy device.fstype = true
        · rw [if_pos h]
          exact dictInsert_values_ne (by simp) (truthy_getD_ne h)
        · rw [if_neg h]
          simp
      simp only [get_filesystem_info] at hkv
      split at hkv
      · exact hinit kv hkv
      · exact foldl_children_values_ne _ _ hinit kv hkv
  · intro kname
    rfl
  · intro env disk_path h
    unfold get_disk_filesystems
    rw [h]
    decide

/-- Environment returning one `lsblk NAME,FSTYPE` line with a detected
filesystem. -/
def envFsProbe : Env :=
  { run := fun cmd =>
      if cmd = ["lsblk", "-n", "-o", "NAME,FSTYPE", "/dev/nvme0n1"] then
        some "nvme0n1p1 ext4\n"
      else none
    pathExists := fun _ => false
    writeFile := fun _ _ => false
    listDevDir := .ok [] }

/-- C8 witness: the detected `ext4` entry of the concrete probe has a
nonempty value. -/
theorem claim_C8_witness :
    (("/dev/nvme0n1p1", "ext4") : String × String).2 ≠ "" :=
  claim_C8.1 envFsProbe "/dev/nvme0n1" ("/dev/nvme0n1p1", "ext4")
    (by decide)

/-- C9: when the `/dev` enumeration itself fails, the disk inventory
returns the empty list together with a user-visible error message — the
failure is not propagated. -/
theorem claim_C9 (env : Env) (e : String)
    (h : env.listDevDir = .error e) :
    get_available_nvme_disks env =
      ([], [Msg.error ("Failed to list disks: " ++ e)]) := by
  simp [get_available_nvme_disks, h]

/-- C9 witness: `claim_C9` at a concrete failing enumeration. -/
theorem claim_C9_witness :
    get_available_nvme_disks
        { run := fun _ => none
          pathExists := fun _ => false
          writeFile := fun _ _ => false
          listDevDir := .error "io error" } =
      ([], [Msg.error ("Failed to list disks: " ++ "io error")]) :=
  claim_C9
    { run := fun _ => none
      pathExists := fun _ => false
      writeFile := fun _ _ => false
      listDevDir := .error "io error" }
    "io error" rfl

/-- C10: whenever `create_zfs_pool` returns with success `false`, the pool
name and EFI partition of the returned triple are both the empty
string. -/
theorem claim_C10 (env : Env) (disks : List String)
    (pool_type pool_name : String)
    (res : (Bool × String × String) × List Msg)
    (h : create_zfs_pool env disks pool_type pool_name = some res)
    (hfail : res.1.1 = false) :
    res.1.2.1 = "" ∧ res.1.2.2 = "" := by
  unfold create_zfs_pool at h
  split at h
  · exact absurd h (by simp)
  · split at h
    · obtain rfl := Option.some_inj.mp h
      exact ⟨rfl, rfl⟩
    · simp only [] at h
      split at h
      · obtain rfl := Option.some_inj.mp h
        exact ⟨rfl, rfl⟩
      · split at h
        · obtain rfl := Option.some_inj.mp h
          simp at hfail
        · obtain rfl := Option.some_inj.mp h
          exact ⟨rfl, rfl⟩

/-- Environment in which every external command fails. -/
def envAllFail : Env :=
  { run := fun _ => none
    pathExists := fun _ => false
    writeFile := fun _ _ => false
    listDevDir := .error "" }

/-- C10 witness: `claim_C10` at a concrete failing run. -/
theorem claim_C10_witness :
    (((false, "", ""),
      [Msg.error "Failed to create partitions on /dev/nvme0n1"]) :
      (Bool × String × String) × List Msg).1.2.1 = "" ∧
    (((false, "", ""),
      [Msg.error "Failed to create partitions on /dev/nvme0n1"]) :
      (Bool × String × String) × List Msg).1.2.2 = "" :=
  claim_C10 envAllFail ["/dev/nvme0n1"] "single" "neonpool"
    ((false, "", ""),
      [Msg.error "Failed to create partitions on /dev/nvme0n1"])
    (by decide) rfl

end NeonInstall
